import Mathlib

/-!
Verification development for pyqtgraph StickPlotItem
(src/pyqtgraph/graphicsItems/StickPlotItem.py).

The class is shallowly embedded: option values (None, Python/numpy
scalars, 1-d arrays) become the inductive type Val over the rationals;
fallible code becomes Except over an error type with one constructor per
distinct Python failure site; the mutable object becomes the structure
Stick with explicit state passing.  Qt collaborators (QPicture, QPainter,
fn.mkPen, getConfigOption, update, informViewBoundsChanged,
prepareGeometryChange) are external and have no effect on the modelled
data, except that the drawn QLineF primitives are recorded as the list of
Line values handed to the painter.
-/

set_option autoImplicit false

namespace StickPlot

/-- A Python value as it can appear in the data options of the item:
None, a scalar number, or a 1-d numeric array (list or numpy array; the
asarray helper in drawPicture makes the two interchangeable). -/
inductive Val where
  | none
  | scalar (q : ℚ)
  | arr (xs : List ℚ)
deriving DecidableEq, Repr

/-- One constructor per distinct Python failure site in the class.
All of lenTypeError, subscriptTypeError and opTypeError are Python
TypeError, raised at different places; broadcastError and
emptyReduceError are ValueError; scalarAttrError and noShapeAttrError
are AttributeError; missingDataError is the explicit Exception raised by
drawPicture; playNoneError marks the (unreachable) call of play on None. -/
inductive Err where
  | lenTypeError
  | subscriptTypeError
  | opTypeError
  | broadcastError
  | indexError
  | emptyReduceError
  | scalarAttrError
  | noShapeAttrError
  | playNoneError
  | missingDataError
deriving DecidableEq, Repr

/-- A line primitive handed to the painter: p.drawLine(QtCore.QLineF(xa, ya, xb, yb)). -/
structure Line where
  xa : ℚ
  ya : ℚ
  xb : ℚ
  yb : ℚ
deriving DecidableEq, Repr

/-- The boundingCorners list [c0, c1, c2, c3] of the item. -/
structure Corners where
  c0 : ℚ
  c1 : ℚ
  c2 : ℚ
  c3 : ℚ
deriving DecidableEq, Repr

/-- The opts dict created in the constructor, with its eight fixed keys. -/
structure Opts where
  name : Val
  x : Val
  y : Val
  y0 : Val
  y1 : Val
  height : Val
  pen : Val
  pens : Val
deriving DecidableEq, Repr

/-- An elementwise numpy binary operation with broadcasting: scalars
broadcast against arrays, arrays of equal length combine pointwise, a
length-one array broadcasts against any other length, and any other
length mismatch is a ValueError; an operand that is None is a TypeError. -/
def vbin (f : ℚ → ℚ → ℚ) : Val → Val → Except Err Val
  | Val.scalar a, Val.scalar b => .ok (Val.scalar (f a b))
  | Val.scalar a, Val.arr bs => .ok (Val.arr (bs.map (fun b => f a b)))
  | Val.arr as, Val.scalar b => .ok (Val.arr (as.map (fun a => f a b)))
  | Val.arr as, Val.arr bs =>
    if as.length = bs.length then .ok (Val.arr (List.zipWith f as bs))
    else if as.length = 1 then .ok (Val.arr (bs.map (fun b => f (as.headI) b)))
    else if bs.length = 1 then .ok (Val.arr (as.map (fun a => f a (bs.headI))))
    else .error Err.broadcastError
  | _, _ => .error Err.opTypeError

/-- len(v): arrays have a length; len of None or of a scalar is a TypeError. -/
def lenV : Val → Except Err Nat
  | Val.arr xs => .ok xs.length
  | _ => .error Err.lenTypeError

/-- v.min(): defined on non-empty arrays; a ValueError on an empty array
(numpy zero-size reduction) and an AttributeError on a scalar or None. -/
def npMin : Val → Except Err ℚ
  | Val.arr (q :: qs) => .ok (qs.foldl min q)
  | Val.arr [] => .error Err.emptyReduceError
  | _ => .error Err.scalarAttrError

/-- v.max(): defined on non-empty arrays, like npMin. -/
def npMax : Val → Except Err ℚ
  | Val.arr (q :: qs) => .ok (qs.foldl max q)
  | Val.arr [] => .error Err.emptyReduceError
  | _ => .error Err.scalarAttrError

/-- v[i]: subscription without an isscalar guard (used for pens[i]);
out of range is an IndexError, None or a scalar is a TypeError. -/
def subscript (v : Val) (i : Nat) : Except Err ℚ :=
  match v with
  | Val.arr xs => if h : i < xs.length then .ok (xs.get ⟨i, h⟩) else .error Err.indexError
  | _ => .error Err.subscriptTypeError

/-- The per-element access pattern of the drawing loop:
if np.isscalar(v) the scalar itself is used, otherwise v[i]. -/
def pickElem (v : Val) (i : Nat) : Except Err ℚ :=
  match v with
  | Val.scalar q => .ok q
  | Val.arr xs => if h : i < xs.length then .ok (xs.get ⟨i, h⟩) else .error Err.indexError
  | Val.none => .error Err.subscriptTypeError

/-- The y-bound derivation of drawPicture (source lines 80 to 87):
if y and height are both given then y0 = y - height/2 and
y1 = y + height/2; if only height is given then y0 = 0 and y1 = height;
if after that y0 and y1 are both missing an Exception is raised;
otherwise the supplied y0 and y1 are kept. -/
def deriveBounds (y y0 y1 height : Val) : Except Err (Val × Val) :=
  match y, height with
  | Val.none, Val.none =>
    match y0, y1 with
    | Val.none, Val.none => .error Err.missingDataError
    | _, _ => .ok (y0, y1)
  | Val.none, h => .ok (Val.scalar 0, h)
  | _, Val.none =>
    match y0, y1 with
    | Val.none, Val.none => .error Err.missingDataError
    | _, _ => .ok (y0, y1)
  | yv, hv =>
    match vbin (fun a b => a / b) hv (Val.scalar 2) with
    | .error e => .error e
    | .ok h2 =>
      match vbin (fun a b => a - b) yv h2 with
      | .error e => .error e
      | .ok lo =>
        match vbin (fun a b => a + b) yv h2 with
        | .error e => .error e
        | .ok hi => .ok (lo, hi)

/-- First corner block of drawPicture (source lines 90 to 92):
if len(x) > 0 then boundingCorners[0] = x.min() and then, on the same
index 0, boundingCorners[0] = x.max().  Index 2 is never written. -/
def cornersX (bc : Corners) (x : Val) (n : Nat) : Except Err Corners :=
  if 0 < n then
    match npMin x with
    | .error e => .error e
    | .ok mn =>
      let bc1 := { bc with c0 := mn }
      match npMax x with
      | .error e => .error e
      | .ok mx => .ok { bc1 with c0 := mx }
  else .ok bc

/-- Second corner block of drawPicture (source lines 93 to 95):
if len(x) > 0 then boundingCorners[1] = y0.min() and
boundingCorners[3] = y1.max(). -/
def cornersY (bc : Corners) (lo hi : Val) (n : Nat) : Except Err Corners :=
  if 0 < n then
    match npMin lo with
    | .error e => .error e
    | .ok lmn =>
      let bc1 := { bc with c1 := lmn }
      match npMax hi with
      | .error e => .error e
      | .ok hmx => .ok { bc1 with c3 := hmx }
  else .ok bc

/-- The pen update at the top of the loop body: when pens is not None,
fn.mkPen(pens[i]) subscripts pens (mkPen itself is external and total
here); the produced pen is not part of the modelled picture. -/
def penStep (pens : Val) (i : Nat) : Except Err Unit :=
  match pens with
  | Val.none => .ok ()
  | v =>
    match subscript v i with
    | .error e => .error e
    | .ok _ => .ok ()

/-- One iteration of the drawing loop (source lines 98 to 115): optional
pens subscription, then x0, y_lo and y_up via the isscalar pattern, then
p.drawLine(QtCore.QLineF(x0, y_lo, x0, y_up)). -/
def loopStep (pens x lo hi : Val) (i : Nat) : Except Err Line :=
  match penStep pens i with
  | .error e => .error e
  | .ok _ =>
    match pickElem x i with
    | .error e => .error e
    | .ok x0 =>
      match pickElem lo i with
      | .error e => .error e
      | .ok yl =>
        match pickElem hi i with
        | .error e => .error e
        | .ok yu => .ok ⟨x0, yl, x0, yu⟩

/-- The whole drawing loop, iterated over a list of indices
(instantiated with List.range (len x)). -/
def drawLines (pens x lo hi : Val) : List Nat → Except Err (List Line)
  | [] => .ok []
  | i :: is =>
    match loopStep pens x lo hi i with
    | .error e => .error e
    | .ok l =>
      match drawLines pens x lo hi is with
      | .error e => .error e
      | .ok ls => .ok (l :: ls)

/-- The pure content of drawPicture on a given options record: the pen
resolution (getConfigOption fallback) has no effect on the modelled
data; then the y-bound derivation, len(x), the two corner blocks, and
the drawing loop, each failure propagating as the raised exception. -/
def drawPictureCore (o : Opts) : Except Err (List Line × Corners) :=
  match deriveBounds o.y o.y0 o.y1 o.height with
  | .error e => .error e
  | .ok (lo, hi) =>
    match lenV o.x with
    | .error e => .error e
    | .ok n =>
      match cornersX ⟨0, 0, 0, 0⟩ o.x n with
      | .error e => .error e
      | .ok bcx =>
        match cornersY bcx lo hi n with
        | .error e => .error e
        | .ok bc =>
          match drawLines o.pens o.x lo hi (List.range n) with
          | .error e => .error e
          | .ok lines => .ok (lines, bc)

/-- A keyword-argument set for setOpts: for each of the eight option
keys, either absent or a supplied value.  opts.update(kwargs) only
touches the supplied keys. -/
structure OptsUpd where
  name : Option Val
  x : Option Val
  y : Option Val
  y0 : Option Val
  y1 : Option Val
  height : Option Val
  pen : Option Val
  pens : Option Val
deriving DecidableEq, Repr

/-- The dict update self.opts.update(opts) restricted to the eight keys
the class ever creates or reads. -/
def updateOpts (o : Opts) (u : OptsUpd) : Opts :=
  ⟨u.name.getD o.name, u.x.getD o.x, u.y.getD o.y, u.y0.getD o.y0,
   u.y1.getD o.y1, u.height.getD o.height, u.pen.getD o.pen, u.pens.getD o.pens⟩

/-- The keyword arguments setData inspects: it tests membership of
exactly the keys x, y, y0, y1, height and pen; every other key of kargs
is ignored. -/
structure DataKw where
  x : Option Val
  y : Option Val
  y0 : Option Val
  y1 : Option Val
  height : Option Val
  pen : Option Val
deriving DecidableEq, Repr

/-- The mutable state of a StickPlotItem: the opts dict, the
boundingCorners list, the cached picture (None or the recorded list of
drawn lines), and the optional _shape attribute.  The constructor never
creates _shape and the external GraphicsObject base class, per the spec
an external scene-graph collaborator, supplies no such attribute, so it
starts absent. -/
structure Stick where
  opts : Opts
  boundingCorners : Corners
  picture : Option (List Line)
  shapeAttr : Option Unit
deriving DecidableEq, Repr

/-- setOpts: self.opts.update(opts); self.picture = None; the update and
informViewBoundsChanged notifications are external and stateless here. -/
def setOpts (s : Stick) (u : OptsUpd) : Stick :=
  { s with opts := updateOpts s.opts u, picture := Option.none }

/-- The default opts dict built in the constructor: all eight keys None. -/
def defaultOpts : Opts :=
  ⟨Val.none, Val.none, Val.none, Val.none, Val.none, Val.none, Val.none, Val.none⟩

/-- The constructor: the default opts dict, boundingCorners = [0,0,0,0],
picture = None, then setOpts(**opts). -/
def init (u : OptsUpd) : Stick :=
  setOpts ⟨defaultOpts, ⟨0, 0, 0, 0⟩, Option.none, Option.none⟩ u

/-- drawPicture as a state transformer: on success the picture cache
holds the drawn lines and boundingCorners is updated.  On an exception
the real method has already reassigned self.picture and
self.boundingCorners before raising; the claims below only concern the
raised error and successful runs, so those pre-raise writes are not
modelled. -/
def drawPicture (s : Stick) : Except Err Stick :=
  match drawPictureCore s.opts with
  | .error e => .error e
  | .ok (lines, bc) => .ok { s with picture := some lines, boundingCorners := bc }

/-- paint: if self.picture is None then drawPicture(); then
self.picture.play(p), modelled as handing the recorded lines to the
host painter. -/
def paint (s : Stick) : Except Err (Stick × List Line) :=
  match s.picture with
  | Option.none =>
    match drawPicture s with
    | .error e => .error e
    | .ok s2 =>
      match s2.picture with
      | some pic => .ok (s2, pic)
      | Option.none => .error Err.playNoneError
  | some pic => .ok (s, pic)

/-- boundingRect: if self.picture is None then drawPicture(); then
QRectF built from the four boundingCorners entries, modelled as the
corners quadruple passed to the QRectF constructor. -/
def boundingRect (s : Stick) : Except Err (Stick × Corners) :=
  match s.picture with
  | Option.none =>
    match drawPicture s with
    | .error e => .error e
    | .ok s2 => .ok (s2, s2.boundingCorners)
  | some _ => .ok (s, s.boundingCorners)

/-- shape: if self.picture is None then drawPicture(); then return
self._shape, an AttributeError when the attribute is absent. -/
def shape (s : Stick) : Except Err (Stick × Unit) :=
  match s.picture with
  | Option.none =>
    match drawPicture s with
    | .error e => .error e
    | .ok s2 =>
      match s2.shapeAttr with
      | some v => .ok (s2, v)
      | Option.none => .error Err.noShapeAttrError
  | some _ =>
    match s.shapeAttr with
    | some v => .ok (s, v)
    | Option.none => .error Err.noShapeAttrError

/-- setData(**kargs): local name, x, y, y0, y1, height, pen, pens all
start at None; x is taken from kargs when present; height is
successively overwritten by kargs y, y0, y1, height and pen when
present; then setOpts is called with all eight keys, so the remaining
options are reset to None. -/
def setData (s : Stick) (k : DataKw) : Stick :=
  let name := Val.none
  let x := Val.none
  let y := Val.none
  let y0 := Val.none
  let y1 := Val.none
  let height := Val.none
  let pen := Val.none
  let pens := Val.none
  let x := match k.x with | some v => v | Option.none => x
  let height := match k.y with | some v => v | Option.none => height
  let height := match k.y0 with | some v => v | Option.none => height
  let height := match k.y1 with | some v => v | Option.none => height
  let height := match k.height with | some v => v | Option.none => height
  let height := match k.pen with | some v => v | Option.none => height
  setOpts s ⟨some name, some x, some y, some y0, some y1, some height, some pen, some pens⟩

/-- The states of a StickPlotItem reachable through its public
operations: construction, setOpts, setData, and the state updates
performed by successful drawPicture, paint, boundingRect and shape
calls. -/
inductive Reachable : Stick → Prop where
  | of_init (u : OptsUpd) : Reachable (init u)
  | of_setOpts {s : Stick} (u : OptsUpd) : Reachable s → Reachable (setOpts s u)
  | of_setData {s : Stick} (k : DataKw) : Reachable s → Reachable (setData s k)
  | of_drawPicture {s s2 : Stick} : Reachable s → drawPicture s = .ok s2 → Reachable s2
  | of_paint {s s2 : Stick} {pic : List Line} :
      Reachable s → paint s = .ok (s2, pic) → Reachable s2
  | of_boundingRect {s s2 : Stick} {bc : Corners} :
      Reachable s → boundingRect s = .ok (s2, bc) → Reachable s2
  | of_shape {s s2 : Stick} {v : Unit} :
      Reachable s → shape s = .ok (s2, v) → Reachable s2

/-- The intended data-combination invariant as the spec words it: either
(y and height) or (height alone) or (y0 and y1) must be supplied
together with x. -/
def suppliedOK (o : Opts) : Bool :=
  (o.x != Val.none) &&
    (((o.y != Val.none) && (o.height != Val.none)) ||
     ((o.y == Val.none) && (o.height != Val.none)) ||
     ((o.y0 != Val.none) && (o.y1 != Val.none)))

/-- An empty keyword set for setOpts (the call StickPlotItem()). -/
def emptyUpd : OptsUpd :=
  ⟨Option.none, Option.none, Option.none, Option.none,
   Option.none, Option.none, Option.none, Option.none⟩

/-- Options with x = [1, 3], y0 = [0, 0], y1 = [2, 2]. -/
def exOpts1 : Opts :=
  ⟨Val.none, Val.arr [1, 3], Val.none, Val.arr [0, 0], Val.arr [2, 2],
   Val.none, Val.none, Val.none⟩

/-- Options with empty x and y0 = [0] but no y1: these violate the
intended data-combination invariant yet drawPicture succeeds on them. -/
def oQuiet : Opts :=
  ⟨Val.none, Val.arr [], Val.none, Val.arr [0], Val.none,
   Val.none, Val.none, Val.none⟩

/-- Options with only a scalar height = 5 and no x. -/
def oScalarH : Opts :=
  ⟨Val.none, Val.none, Val.none, Val.none, Val.none,
   Val.scalar 5, Val.none, Val.none⟩

/-- Constructor keywords x = [1], y0 = [2], y1 = [3]. -/
def uDrawable : OptsUpd :=
  ⟨Option.none, some (Val.arr [1]), Option.none, some (Val.arr [2]),
   some (Val.arr [3]), Option.none, Option.none, Option.none⟩

/-- The item built by StickPlotItem(x=[1], y0=[2], y1=[3]). -/
def sEx : Stick := init uDrawable

/-- The state of sEx after a successful drawPicture call. -/
def sExDrawn : Stick :=
  ⟨⟨Val.none, Val.arr [1], Val.none, Val.arr [2], Val.arr [3],
    Val.none, Val.none, Val.none⟩,
   ⟨1, 2, 0, 3⟩, some [⟨1, 2, 1, 3⟩], Option.none⟩

/-- The item built by StickPlotItem() with no data at all. -/
def sBad : Stick := init emptyUpd

end StickPlot

open StickPlot

/-- Claim C1: the claim expects boundingCorners = [min x, min y0, max x,
max y1].  On x = [1, 3], y0 = [0, 0], y1 = [2, 2] the code instead
stores x.max() into index 0 (overwriting the just-stored x.min()) and
never writes index 2, producing [3, 0, 0, 2] where the claim demands
[1, 0, 3, 2]. -/
theorem C1_boundingCorners_slip :
    (∃ lines, drawPictureCore exOpts1 = .ok (lines, ⟨3, 0, 0, 2⟩)) ∧
    Corners.mk 3 0 0 2 ≠ Corners.mk 1 0 3 2 :=
  ⟨⟨[⟨1, 0, 1, 2⟩, ⟨3, 0, 3, 2⟩], rfl⟩, by decide⟩

/-- Claim C2: setData routes kargs x into the x option; the height
option receives, in overwrite order, kargs y, y0, y1, height and pen,
the last present key winning; and the name, y, y0, y1, pen and pens
options are unconditionally reset to None. -/
theorem C2_setData_key_routing :
    ∀ (s : Stick) (k : DataKw),
      (setData s k).opts.x = k.x.getD Val.none ∧
      (setData s k).opts.height =
        (k.pen <|> k.height <|> k.y1 <|> k.y0 <|> k.y).getD Val.none ∧
      (setData s k).opts.name = Val.none ∧
      (setData s k).opts.y = Val.none ∧
      (setData s k).opts.y0 = Val.none ∧
      (setData s k).opts.y1 = Val.none ∧
      (setData s k).opts.pen = Val.none ∧
      (setData s k).opts.pens = Val.none := by
  intro s k
  obtain ⟨kx, ky, ky0, ky1, kh, kp⟩ := k
  cases kx <;> cases ky <;> cases ky0 <;> cases ky1 <;> cases kh <;> cases kp <;>
    simp [setData, setOpts, updateOpts, Option.getD]

/-- Claim C8: setOpts only modifies the option keys named in the call;
every option key not named keeps its previous value. -/
theorem C8_setOpts_frame :
    ∀ (s : Stick) (u : OptsUpd),
      (u.name = Option.none → (setOpts s u).opts.name = s.opts.name) ∧
      (u.x = Option.none → (setOpts s u).opts.x = s.opts.x) ∧
      (u.y = Option.none → (setOpts s u).opts.y = s.opts.y) ∧
      (u.y0 = Option.none → (setOpts s u).opts.y0 = s.opts.y0) ∧
      (u.y1 = Option.none → (setOpts s u).opts.y1 = s.opts.y1) ∧
      (u.height = Option.none → (setOpts s u).opts.height = s.opts.height) ∧
      (u.pen = Option.none → (setOpts s u).opts.pen = s.opts.pen) ∧
      (u.pens = Option.none → (setOpts s u).opts.pens = s.opts.pens) := by
  intro s u
  refine ⟨?_, ?_, ?_, ?_, ?_, ?_, ?_, ?_⟩ <;>
    (intro h; simp [setOpts, updateOpts, h])

/-- Witness for C8 at the empty update on a concrete state: no key is
named, so every key keeps its value. -/
theorem C8_setOpts_frame_witness :
    (setOpts sExDrawn emptyUpd).opts.name = sExDrawn.opts.name ∧
    (setOpts sExDrawn emptyUpd).opts.x = sExDrawn.opts.x ∧
    (setOpts sExDrawn emptyUpd).opts.y = sExDrawn.opts.y ∧
    (setOpts sExDrawn emptyUpd).opts.y0 = sExDrawn.opts.y0 ∧
    (setOpts sExDrawn emptyUpd).opts.y1 = sExDrawn.opts.y1 ∧
    (setOpts sExDrawn emptyUpd).opts.height = sExDrawn.opts.height ∧
    (setOpts sExDrawn emptyUpd).opts.pen = sExDrawn.opts.pen ∧
    (setOpts sExDrawn emptyUpd).opts.pens = sExDrawn.opts.pens := by
  have h := C8_setOpts_frame sExDrawn emptyUpd
  exact ⟨h.1 rfl, h.2.1 rfl, h.2.2.1 rfl, h.2.2.2.1 rfl, h.2.2.2.2.1 rfl,
    h.2.2.2.2.2.1 rfl, h.2.2.2.2.2.2.1 rfl, h.2.2.2.2.2.2.2 rfl⟩

/-- Counterexample to claim C7 as stated: the options state with every
data key None violates the invariant, and drawPicture raises the
explicit missing-combination Exception on account of that violation. -/
theorem C7_counterexample_enforced_once :
    suppliedOK defaultOpts = false ∧
    drawPictureCore defaultOpts = .error Err.missingDataError :=
  ⟨rfl, rfl⟩

/-- Claim C7 as amended: the invariant is not validated up front, and a
violating state can even pass drawPicture silently (empty x with y0 but
no y1); but drawPicture does raise an Exception on account of the
violation whenever y, height, y0 and y1 are all missing. -/
theorem C7_enforcement_gap :
    (suppliedOK oQuiet = false ∧ drawPictureCore oQuiet = .ok ([], ⟨0, 0, 0, 0⟩)) ∧
    (∀ o : Opts, o.y = Val.none → o.height = Val.none → o.y0 = Val.none →
      o.y1 = Val.none → drawPictureCore o = .error Err.missingDataError) := by
  refine ⟨⟨rfl, rfl⟩, ?_⟩
  intro o h1 h2 h3 h4
  simp [drawPictureCore, deriveBounds, h1, h2, h3, h4]

/-- Witness for C7 as amended: with all four data keys None,
drawPicture raises the missing-combination Exception. -/
theorem C7_enforcement_gap_witness :
    drawPictureCore defaultOpts = .error Err.missingDataError :=
  C7_enforcement_gap.2 defaultOpts rfl rfl rfl rfl

/-- Counterexample to claim C10 as stated: with x = None and no y data
at all, drawPicture fails at the missing-combination Exception, which
precedes the len(x) call, not at len(x) itself. -/
theorem C10_counterexample_earlier_raise :
    defaultOpts.x = Val.none ∧
    drawPictureCore defaultOpts = .error Err.missingDataError ∧
    Err.missingDataError ≠ Err.lenTypeError :=
  ⟨rfl, rfl, by decide⟩

/-- Claim C10 as amended: whenever x is None or a scalar and the
y-bound derivation itself succeeds, drawPicture fails with the TypeError
of the len(x) call, before any line is drawn. -/
theorem C10_len_of_unsized_x :
    ∀ (o : Opts) (lo hi : Val),
      (o.x = Val.none ∨ ∃ q, o.x = Val.scalar q) →
      deriveBounds o.y o.y0 o.y1 o.height = .ok (lo, hi) →
      drawPictureCore o = .error Err.lenTypeError := by
  intro o lo hi hx hd
  rcases hx with h | ⟨q, h⟩ <;> simp [drawPictureCore, hd, h, lenV]

/-- Witness for C10 as amended: only height = 5 supplied and x = None;
the bounds derive to (0, 5) and drawPicture fails at len(x). -/
theorem C10_len_of_unsized_x_witness :
    drawPictureCore oScalarH = .error Err.lenTypeError :=
  C10_len_of_unsized_x oScalarH (Val.scalar 0) (Val.scalar 5) (Or.inl rfl) rfl

/-- Claim C6: if y and height are both supplied the bounds are
y - height/2 and y + height/2 (shown for scalars and for equal-length
arrays, pointwise); if only height is supplied the bounds are 0 and
height; and when height is absent the supplied y0 and y1 are used
unchanged provided they are not both missing. -/
theorem C6_bound_derivation :
    (∀ (a b : ℚ) (y0v y1v : Val),
      deriveBounds (Val.scalar a) y0v y1v (Val.scalar b) =
        .ok (Val.scalar (a - b / 2), Val.scalar (a + b / 2))) ∧
    (∀ (ys hs : List ℚ) (y0v y1v : Val), ys.length = hs.length →
      deriveBounds (Val.arr ys) y0v y1v (Val.arr hs) =
        .ok (Val.arr (List.zipWith (fun yi hi => yi - hi / 2) ys hs),
             Val.arr (List.zipWith (fun yi hi => yi + hi / 2) ys hs))) ∧
    (∀ (a : ℚ) (hs : List ℚ) (y0v y1v : Val),
      deriveBounds (Val.scalar a) y0v y1v (Val.arr hs) =
        .ok (Val.arr (hs.map (fun hi => a - hi / 2)),
             Val.arr (hs.map (fun hi => a + hi / 2)))) ∧
    (∀ (ys : List ℚ) (b : ℚ) (y0v y1v : Val),
      deriveBounds (Val.arr ys) y0v y1v (Val.scalar b) =
        .ok (Val.arr (ys.map (fun yi => yi - b / 2)),
             Val.arr (ys.map (fun yi => yi + b / 2)))) ∧
    (∀ (h y0v y1v : Val), h ≠ Val.none →
      deriveBounds Val.none y0v y1v h = .ok (Val.scalar 0, h)) ∧
    (∀ (y y0v y1v : Val), ¬(y0v = Val.none ∧ y1v = Val.none) →
      deriveBounds y y0v y1v Val.none = .ok (y0v, y1v)) := by
  refine ⟨?_, ?_, ?_, ?_, ?_, ?_⟩
  · intro a b y0v y1v
    rfl
  · intro ys hs y0v y1v hlen
    simp [deriveBounds, vbin, hlen, List.zipWith_map_right]
  · intro a hs y0v y1v
    simp [deriveBounds, vbin, List.map_map]
  · intro ys b y0v y1v
    rfl
  · intro h y0v y1v hne
    cases h with
    | none => exact absurd rfl hne
    | scalar q => rfl
    | arr xs => rfl
  · intro y y0v y1v hnot
    cases y <;> cases y0v <;> cases y1v <;> simp_all [deriveBounds]

/-- Witness for C6, one instance per branch of the derivation. -/
theorem C6_bound_derivation_witness :
    deriveBounds (Val.scalar 1) Val.none Val.none (Val.scalar 4) =
      .ok (Val.scalar (1 - 4 / 2), Val.scalar (1 + 4 / 2)) ∧
    deriveBounds (Val.arr [2]) Val.none Val.none (Val.arr [2]) =
      .ok (Val.arr (List.zipWith (fun yi hi => yi - hi / 2) [2] [2]),
           Val.arr (List.zipWith (fun yi hi => yi + hi / 2) [2] [2])) ∧
    deriveBounds Val.none Val.none Val.none (Val.scalar 5) =
      .ok (Val.scalar 0, Val.scalar 5) ∧
    deriveBounds Val.none (Val.arr [1]) (Val.arr [2]) Val.none =
      .ok (Val.arr [1], Val.arr [2]) :=
  ⟨C6_bound_derivation.1 1 4 Val.none Val.none,
   C6_bound_derivation.2.1 [2] [2] Val.none Val.none rfl,
   C6_bound_derivation.2.2.2.2.1 (Val.scalar 5) Val.none Val.none (by simp),
   C6_bound_derivation.2.2.2.2.2 Val.none (Val.arr [1]) (Val.arr [2]) (by simp)⟩

namespace StickPlot

/-- A successful drawPicture always fills the picture cache with the
drawn lines. -/
theorem drawPicture_picture_some {s s2 : Stick} (h : drawPicture s = .ok s2) :
    ∃ pic, s2.picture = some pic := by
  unfold drawPicture at h
  cases hc : drawPictureCore s.opts with
  | error e => rw [hc] at h; exact absurd h (by simp)
  | ok r =>
    obtain ⟨lines, bc⟩ := r
    rw [hc] at h
    simp only [Except.ok.injEq] at h
    exact ⟨lines, by rw [← h]⟩

end StickPlot

/-- Claim C3: setOpts always empties the picture cache, and paint and
boundingRect rebuild the picture through drawPicture exactly when the
cache is empty: with a cached picture they leave the state untouched
and use the cache, with an empty cache they run drawPicture and use its
result, propagating its exception if it fails. -/
theorem C3_invalidate_and_lazy_rebuild :
    (∀ (s : Stick) (u : OptsUpd), (setOpts s u).picture = Option.none) ∧
    (∀ (s : Stick) (pic : List Line), s.picture = some pic →
      paint s = .ok (s, pic)) ∧
    (∀ (s s2 : Stick), s.picture = Option.none → drawPicture s = .ok s2 →
      ∃ pic, s2.picture = some pic ∧ paint s = .ok (s2, pic)) ∧
    (∀ (s : Stick) (e : Err), s.picture = Option.none → drawPicture s = .error e →
      paint s = .error e) ∧
    (∀ (s : Stick) (pic : List Line), s.picture = some pic →
      boundingRect s = .ok (s, s.boundingCorners)) ∧
    (∀ (s s2 : Stick), s.picture = Option.none → drawPicture s = .ok s2 →
      boundingRect s = .ok (s2, s2.boundingCorners)) ∧
    (∀ (s : Stick) (e : Err), s.picture = Option.none → drawPicture s = .error e →
      boundingRect s = .error e) := by
  refine ⟨?_, ?_, ?_, ?_, ?_, ?_, ?_⟩
  · intro s u
    rfl
  · intro s pic hp
    simp [paint, hp]
  · intro s s2 hp hd
    obtain ⟨pic, hpic⟩ := drawPicture_picture_some hd
    exact ⟨pic, hpic, by simp [paint, hp, hd, hpic]⟩
  · intro s e hp hd
    simp [paint, hp, hd]
  · intro s pic hp
    simp [boundingRect, hp]
  · intro s s2 hp hd
    simp [boundingRect, hp, hd]
  · intro s e hp hd
    simp [boundingRect, hp, hd]

/-- Witness for C3 on concrete items: a freshly constructed item has an
empty cache, paint on it rebuilds via drawPicture, a drawn item paints
from the cache unchanged, and the failing item propagates the
drawPicture exception from both paint and boundingRect. -/
theorem C3_invalidate_and_lazy_rebuild_witness :
    (setOpts sExDrawn emptyUpd).picture = Option.none ∧
    paint sExDrawn = .ok (sExDrawn, [⟨1, 2, 1, 3⟩]) ∧
    (∃ pic, sExDrawn.picture = some pic ∧ paint sEx = .ok (sExDrawn, pic)) ∧
    paint sBad = .error Err.missingDataError ∧
    boundingRect sExDrawn = .ok (sExDrawn, sExDrawn.boundingCorners) ∧
    boundingRect sEx = .ok (sExDrawn, sExDrawn.boundingCorners) ∧
    boundingRect sBad = .error Err.missingDataError := by
  have h := C3_invalidate_and_lazy_rebuild
  exact ⟨h.1 sExDrawn emptyUpd,
    h.2.1 sExDrawn [⟨1, 2, 1, 3⟩] rfl,
    h.2.2.1 sEx sExDrawn rfl rfl,
    h.2.2.2.1 sBad Err.missingDataError rfl rfl,
    h.2.2.2.2.1 sExDrawn [⟨1, 2, 1, 3⟩] rfl,
    h.2.2.2.2.2.1 sEx sExDrawn rfl rfl,
    h.2.2.2.2.2.2 sBad Err.missingDataError rfl rfl⟩

namespace StickPlot

/-- Inversion of one successful loop iteration: the drawn line takes its
single x-coordinate from element i of x and its two y-coordinates from
element i of the two derived bounds. -/
theorem loopStep_ok_inv {pens x lo hi : Val} {i : Nat} {l : Line}
    (h : loopStep pens x lo hi i = .ok l) :
    ∃ x0 yl yu, pickElem x i = .ok x0 ∧ pickElem lo i = .ok yl ∧
      pickElem hi i = .ok yu ∧ l = ⟨x0, yl, x0, yu⟩ := by
  unfold loopStep at h
  cases hp : penStep pens i with
  | error e => rw [hp] at h; exact absurd h (by simp)
  | ok u =>
    rw [hp] at h
    cases hx : pickElem x i with
    | error e => rw [hx] at h; exact absurd h (by simp)
    | ok x0 =>
      rw [hx] at h
      cases hl : pickElem lo i with
      | error e => rw [hl] at h; exact absurd h (by simp)
      | ok yl =>
        rw [hl] at h
        cases hu : pickElem hi i with
        | error e => rw [hu] at h; exact absurd h (by simp)
        | ok yu =>
          rw [hu] at h
          simp only [Except.ok.injEq] at h
          exact ⟨x0, yl, yu, rfl, rfl, rfl, h.symm⟩

/-- A successful run of the drawing loop yields one line per index, the
j-th line produced by the loop body at the j-th index. -/
theorem drawLines_ok_inv (pens x lo hi : Val) :
    ∀ (is : List Nat) (lines : List Line),
      drawLines pens x lo hi is = .ok lines →
      lines.length = is.length ∧
      ∀ (j : Nat) (hj : j < lines.length) (hj2 : j < is.length),
        loopStep pens x lo hi (is.get ⟨j, hj2⟩) = .ok (lines.get ⟨j, hj⟩) := by
  intro is
  induction is with
  | nil =>
    intro lines h
    simp only [drawLines, Except.ok.injEq] at h
    subst h
    exact ⟨rfl, fun j hj hj2 => absurd hj2 (by simp)⟩
  | cons i is ih =>
    intro lines h
    simp only [drawLines] at h
    cases hs : loopStep pens x lo hi i with
    | error e => rw [hs] at h; exact absurd h (by simp)
    | ok l =>
      rw [hs] at h
      cases hrest : drawLines pens x lo hi is with
      | error e => rw [hrest] at h; exact absurd h (by simp)
      | ok ls =>
        rw [hrest] at h
        simp only [Except.ok.injEq] at h
        subst h
        obtain ⟨hlen, hget⟩ := ih ls hrest
        refine ⟨by simp [hlen], ?_⟩
        intro j hj hj2
        cases j with
        | zero => simpa using hs
        | succ j =>
          have hj' : j < ls.length := by simpa using hj
          have hj2' : j < is.length := by simpa using hj2
          simpa using hget j hj' hj2'

/-- Inversion of a successful drawPictureCore run into its four stages:
bound derivation, len(x), the two corner blocks, and the drawing loop
over range (len x). -/
theorem drawPictureCore_ok_inv {o : Opts} {lines : List Line} {bc : Corners}
    (h : drawPictureCore o = .ok (lines, bc)) :
    ∃ lo hi n bcx,
      deriveBounds o.y o.y0 o.y1 o.height = .ok (lo, hi) ∧
      lenV o.x = .ok n ∧
      cornersX ⟨0, 0, 0, 0⟩ o.x n = .ok bcx ∧
      cornersY bcx lo hi n = .ok bc ∧
      drawLines o.pens o.x lo hi (List.range n) = .ok lines := by
  unfold drawPictureCore at h
  cases hd : deriveBounds o.y o.y0 o.y1 o.height with
  | error e => simp only [hd] at h; exact absurd h (by simp)
  | ok p =>
    obtain ⟨lo, hi⟩ := p
    simp only [hd] at h
    cases hn : lenV o.x with
    | error e => simp only [hn] at h; exact absurd h (by simp)
    | ok n =>
      simp only [hn] at h
      cases hbx : cornersX ⟨0, 0, 0, 0⟩ o.x n with
      | error e => simp only [hbx] at h; exact absurd h (by simp)
      | ok bcx =>
        simp only [hbx] at h
        cases hby : cornersY bcx lo hi n with
        | error e => simp only [hby] at h; exact absurd h (by simp)
        | ok bc2 =>
          simp only [hby] at h
          cases hls : drawLines o.pens o.x lo hi (List.range n) with
          | error e => simp only [hls] at h; exact absurd h (by simp)
          | ok ls =>
            simp only [hls, Except.ok.injEq, Prod.mk.injEq] at h
            exact ⟨lo, hi, n, bcx, rfl, rfl, hbx, h.2 ▸ hby, h.1 ▸ hls⟩

end StickPlot

/-- Claim C4: on an array x of length n (and a successful run),
drawPicture issues exactly n line-drawing calls, the i-th consuming row
i of the inputs: its x-coordinate is x[i] and its y-coordinates are
element i of the two derived bounds. -/
theorem C4_one_line_per_row :
    ∀ (o : Opts) (xs : List ℚ) (lines : List Line) (bc : Corners),
      drawPictureCore o = .ok (lines, bc) → o.x = Val.arr xs →
      lines.length = xs.length ∧
      ∃ lov upv, deriveBounds o.y o.y0 o.y1 o.height = .ok (lov, upv) ∧
        ∀ (i : Nat) (hil : i < lines.length),
          ∃ yl yu, pickElem lov i = .ok yl ∧ pickElem upv i = .ok yu ∧
            lines.get ⟨i, hil⟩ = ⟨xs.getD i 0, yl, xs.getD i 0, yu⟩ := by
  intro o xs lines bc h hx
  obtain ⟨lo, hi, n, bcx, hd, hn, hbx, hby, hls⟩ := drawPictureCore_ok_inv h
  have hnx : xs.length = n := by
    rw [hx] at hn
    simpa [lenV] using hn
  obtain ⟨hlen, hget⟩ := drawLines_ok_inv o.pens o.x lo hi (List.range n) lines hls
  have hlen2 : lines.length = xs.length := by
    rw [hlen, List.length_range, hnx]
  refine ⟨hlen2, lo, hi, hd, ?_⟩
  intro i hil
  have hir : i < (List.range n).length := by
    rw [List.length_range, ← hnx, ← hlen2]
    exact hil
  have hstep := hget i hil hir
  rw [List.get_range] at hstep
  obtain ⟨x0, yl, yu, hpx, hpl, hpu, hline⟩ := loopStep_ok_inv hstep
  have hix : i < xs.length := hlen2 ▸ hil
  have hpx2 : pickElem o.x i = .ok (xs.getD i 0) := by
    rw [hx]
    simp [pickElem, hix, List.getD_eq_get]
  rw [hpx2] at hpx
  simp only [Except.ok.injEq] at hpx
  exact ⟨yl, yu, hpl, hpu, by rw [hline, hpx]⟩

/-- Witness for C4 on x = [1, 3], y0 = [0, 0], y1 = [2, 2]: two rows
give two drawn lines. -/
theorem C4_one_line_per_row_witness :
    ([⟨1, 0, 1, 2⟩, ⟨3, 0, 3, 2⟩] : List Line).length = ([1, 3] : List ℚ).length :=
  (C4_one_line_per_row exOpts1 [1, 3] [⟨1, 0, 1, 2⟩, ⟨3, 0, 3, 2⟩] ⟨3, 0, 0, 2⟩ rfl rfl).1

/-- Claim C5: every drawn segment is vertical: the i-th line has both
endpoints at the x-coordinate taken from element i of x (the scalar
itself when x is scalar), running from element i of the derived lower
bound to element i of the derived upper bound. -/
theorem C5_vertical_segments :
    ∀ (o : Opts) (lines : List Line) (bc : Corners),
      drawPictureCore o = .ok (lines, bc) →
      ∃ lov upv, deriveBounds o.y o.y0 o.y1 o.height = .ok (lov, upv) ∧
        ∀ (i : Nat) (hil : i < lines.length),
          (lines.get ⟨i, hil⟩).xa = (lines.get ⟨i, hil⟩).xb ∧
          pickElem o.x i = .ok (lines.get ⟨i, hil⟩).xa ∧
          pickElem lov i = .ok (lines.get ⟨i, hil⟩).ya ∧
          pickElem upv i = .ok (lines.get ⟨i, hil⟩).yb := by
  intro o lines bc h
  obtain ⟨lo, hi, n, bcx, hd, hn, hbx, hby, hls⟩ := drawPictureCore_ok_inv h
  obtain ⟨hlen, hget⟩ := drawLines_ok_inv o.pens o.x lo hi (List.range n) lines hls
  refine ⟨lo, hi, hd, ?_⟩
  intro i hil
  have hir : i < (List.range n).length := by
    rw [← hlen]
    exact hil
  have hstep := hget i hil hir
  rw [List.get_range] at hstep
  obtain ⟨x0, yl, yu, hpx, hpl, hpu, hline⟩ := loopStep_ok_inv hstep
  rw [hline]
  exact ⟨rfl, hpx, hpl, hpu⟩

/-- Witness for C5 on x = [1, 3], y0 = [0, 0], y1 = [2, 2]: both drawn
lines are vertical. -/
theorem C5_vertical_segments_witness :
    ∃ l1 l2, drawPictureCore exOpts1 = .ok ([l1, l2], ⟨3, 0, 0, 2⟩) ∧
      l1.xa = l1.xb ∧ l2.xa = l2.xb := by
  refine ⟨⟨1, 0, 1, 2⟩, ⟨3, 0, 3, 2⟩, rfl, ?_, ?_⟩
  · obtain ⟨lov, upv, hd, hall⟩ :=
      C5_vertical_segments exOpts1 [⟨1, 0, 1, 2⟩, ⟨3, 0, 3, 2⟩] ⟨3, 0, 0, 2⟩ rfl
    exact (hall 0 (by decide)).1
  · obtain ⟨lov, upv, hd, hall⟩ :=
      C5_vertical_segments exOpts1 [⟨1, 0, 1, 2⟩, ⟨3, 0, 3, 2⟩] ⟨3, 0, 0, 2⟩ rfl
    exact (hall 1 (by decide)).1

namespace StickPlot

/-- drawPicture only updates the picture cache and the bounding
corners; the _shape attribute is untouched. -/
theorem drawPicture_shapeAttr {s s2 : Stick} (h : drawPicture s = .ok s2) :
    s2.shapeAttr = s.shapeAttr := by
  unfold drawPicture at h
  cases hc : drawPictureCore s.opts with
  | error e => rw [hc] at h; exact absurd h (by simp)
  | ok r =>
    obtain ⟨lines, bc⟩ := r
    rw [hc] at h
    simp only [Except.ok.injEq] at h
    rw [← h]

/-- No operation of the class ever assigns the _shape attribute, so on
every reachable state it is still absent. -/
theorem reachable_shapeAttr {s : Stick} (h : Reachable s) :
    s.shapeAttr = Option.none := by
  induction h with
  | of_init u => rfl
  | of_setOpts u _ ih => simpa [setOpts] using ih
  | of_setData k _ ih => simpa [setData, setOpts] using ih
  | of_drawPicture _ hd ih => rw [drawPicture_shapeAttr hd]; exact ih
  | @of_paint s s2 pic _ hp ih =>
    unfold paint at hp
    cases hpi : s.picture with
    | some pic2 =>
      rw [hpi] at hp
      simp only [Except.ok.injEq, Prod.mk.injEq] at hp
      rw [← hp.1]
      exact ih
    | none =>
      simp only [hpi] at hp
      cases hd : drawPicture s with
      | error e => simp only [hd] at hp; exact absurd hp (by simp)
      | ok s3 =>
        simp only [hd] at hp
        cases hp3 : s3.picture with
        | none => simp only [hp3] at hp; exact absurd hp (by simp)
        | some p3 =>
          simp only [hp3, Except.ok.injEq, Prod.mk.injEq] at hp
          rw [← hp.1, drawPicture_shapeAttr hd]
          exact ih
  | @of_boundingRect s s2 bc _ hp ih =>
    unfold boundingRect at hp
    cases hpi : s.picture with
    | some pic2 =>
      rw [hpi] at hp
      simp only [Except.ok.injEq, Prod.mk.injEq] at hp
      rw [← hp.1]
      exact ih
    | none =>
      simp only [hpi] at hp
      cases hd : drawPicture s with
      | error e => simp only [hd] at hp; exact absurd hp (by simp)
      | ok s3 =>
        simp only [hd, Except.ok.injEq, Prod.mk.injEq] at hp
        rw [← hp.1, drawPicture_shapeAttr hd]
        exact ih
  | @of_shape s s2 v _ hp ih =>
    unfold shape at hp
    cases hpi : s.picture with
    | some pic2 =>
      rw [hpi] at hp
      rw [ih] at hp
      exact absurd hp (by simp)
    | none =>
      simp only [hpi] at hp
      cases hd : drawPicture s with
      | error e => simp only [hd] at hp; exact absurd hp (by simp)
      | ok s3 =>
        simp only [hd] at hp
        have h3 : s3.shapeAttr = Option.none := by
          rw [drawPicture_shapeAttr hd]; exact ih
        simp only [h3] at hp
        exact absurd hp (by simp)

end StickPlot

/-- Counterexample to claim C9 as stated: the freshly constructed item
with no data is reachable, yet shape() on it raises the
missing-combination Exception out of the lazy drawPicture call, not an
AttributeError. -/
theorem C9_counterexample_draw_error_first :
    Reachable sBad ∧
    shape sBad = .error Err.missingDataError ∧
    Err.missingDataError ≠ Err.noShapeAttrError :=
  ⟨Reachable.of_init emptyUpd, rfl, by decide⟩

/-- Claim C9 as amended: on every reachable state shape() never returns
normally, because no operation of the class ever assigns _shape; it
raises AttributeError at the return of self._shape whenever the cached
picture is present or the lazy drawPicture call succeeds, while a
failing drawPicture propagates its own error instead. -/
theorem C9_shape_never_returns :
    ∀ s : Stick, Reachable s →
      (∀ r : Stick × Unit, shape s ≠ .ok r) ∧
      (∀ pic, s.picture = some pic → shape s = .error Err.noShapeAttrError) ∧
      (∀ s2, s.picture = Option.none → drawPicture s = .ok s2 →
        shape s = .error Err.noShapeAttrError) := by
  intro s hr
  have hA := reachable_shapeAttr hr
  refine ⟨?_, ?_, ?_⟩
  · intro r hok
    unfold shape at hok
    cases hpi : s.picture with
    | some pic =>
      rw [hpi, hA] at hok
      exact absurd hok (by simp)
    | none =>
      simp only [hpi] at hok
      cases hd : drawPicture s with
      | error e => simp only [hd] at hok; exact absurd hok (by simp)
      | ok s3 =>
        simp only [hd] at hok
        have h3 : s3.shapeAttr = Option.none := by
          rw [drawPicture_shapeAttr hd]; exact hA
        simp only [h3] at hok
        exact absurd hok (by simp)
  · intro pic hpi
    simp [shape, hpi, hA]
  · intro s2 hpi hd
    have h3 : s2.shapeAttr = Option.none := by
      rw [drawPicture_shapeAttr hd]; exact hA
    simp [shape, hpi, hd, h3]

/-- Witness for C9 as amended: on the freshly constructed item with
x = [1], y0 = [2], y1 = [3] the lazy drawPicture succeeds and shape()
raises AttributeError. -/
theorem C9_shape_never_returns_witness :
    shape sEx = .error Err.noShapeAttrError :=
  (C9_shape_never_returns sEx (Reachable.of_init uDrawable)).2.2 sExDrawn rfl rfl
